import Mathlib

/-!
# Verification of `export_posts.py` (bsky-to-gem)

A shallow embedding of the single source file `src/export_posts.py` of the
`ewanc26/bsky-to-gem` repository, together with theorems settling the frozen
claims about its specification.

Modelling conventions:
* Raw remote records (the values returned by the paginated `list_records`
  endpoint) are modelled with an explicit tagged variant for the duck-typed
  optional `embed` attribute (`hasattr(record.value, 'embed') and
  record.value.embed`): `absent` covers both a missing attribute and a falsy
  one, and `present ty imgs` covers an embed object whose `py_type` is `ty`.
* An image sub-record's `alt` attribute is `Option String`: `none` models a
  missing alt value, `some s` a present one.  The code copies `image.alt`
  into the output dictionary unchanged.
* Python `int` arithmetic is `Nat`/`Int`; `//` on nonnegative ints is `Nat`
  division.  The float expression `excess / avg * 1.1` is modelled as exact
  rational arithmetic (`1.1` as `11/10`) and Python's `int()` conversion as
  truncation toward zero (`pyInt`).
* A Python statement that raises `ZeroDivisionError` is modelled by an
  `Except Unit` error result at exactly the program point where the division
  is executed.
* The interactive y/n prompt is modelled by a caller-supplied Boolean
  `accept_trim`, and a page request that raises a transport error by an
  `Except.error` entry in the list of page responses.
-/

namespace BskyExport

/-- One image sub-record of an images embed: the content id of the blob and
the (possibly missing) alt text, as read off `image.image.cid` and
`image.alt` in the source. -/
structure RawImage where
  cid : String
  alt : Option String
deriving DecidableEq

/-- The duck-typed optional `embed` attribute of a raw record, as a tagged
variant: `absent` when `hasattr(record.value, 'embed')` is false or the
attribute is falsy, `present ty imgs` when an embed object with
`py_type = ty` and image list `imgs` is there. -/
inductive Embed where
  | absent : Embed
  | present : String → List RawImage → Embed
deriving DecidableEq

/-- One raw record from a `list_records` page (`record.value` in the
source). -/
structure RawRecord where
  created_at : String
  text : String
  embed : Embed
deriving DecidableEq

/-- One image descriptor of an exported post: the dictionary
`\x7b'url': image_url, 'alt_text': image.alt\x7d` built at lines 176-179.
`alt_text` is `Option String` because the code stores `image.alt` verbatim,
which may be a missing value. -/
structure ImageRef where
  url : String
  alt_text : Option String
deriving DecidableEq

/-- One exported post: the dictionary `post_data` built at lines 164-168. -/
structure Post where
  created_at : String
  text : String
  images : List ImageRef
deriving DecidableEq

/-- Line 142: the CDN URL base for Bluesky images. -/
def image_cdn_base : String := "https://cdn.bsky.app/img/feed_fullsize/plain"

/-- Lines 163-181: transformation of one raw record into `post_data`.
The `embed` attribute is tested for presence before being dereferenced;
an images-type embed contributes one `ImageRef` per image, any other embed
(or no embed) contributes nothing. -/
def transform_record (repo_did : String) (record : RawRecord) : Post :=
  { created_at := record.created_at
    text := record.text
    images :=
      match record.embed with
      | Embed.absent => []
      | Embed.present ty imgs =>
        if ty = "app.bsky.embed.images" then
          imgs.map fun image =>
            { url := image_cdn_base ++ "/" ++ repo_did ++ "/" ++ image.cid ++ "@jpeg"
              alt_text := image.alt }
        else [] }

/-- One page returned by `list_records`: its records and its next cursor
(`none` models a missing cursor). -/
structure Page where
  records : List RawRecord
  cursor : Option String
deriving DecidableEq

/-- Python truthiness of the cursor (`if not cursor: break` at line 188):
`none` and the empty string are falsy. -/
def cursorTruthy : Option String → Bool
  | none => false
  | some s => !s.isEmpty

/-- Lines 146-194: the pagination loop.  The input list is the sequence of
page responses the server would hand back for successive requests; an
`Except.error` entry models a request that raises.  Per iteration: a raised
request breaks the loop (line 192-194); a page with zero records breaks the
loop (line 159-161); otherwise every record is transformed and appended
(lines 163-181) and the loop breaks if the page's next cursor is falsy
(lines 187-190). -/
def fetchLoop (repo_did : String) : List (Except Unit Page) → List Post
  | [] => []
  | Except.error _ :: _ => []
  | Except.ok page :: rest =>
    if page.records.isEmpty then []
    else
      let batch := page.records.map (transform_record repo_did)
      if cursorTruthy page.cursor then batch ++ fetchLoop repo_did rest
      else batch

/-- The comparator actually used by line 198
(`all_posts.sort(key=lambda x: x['created_at'], reverse=True)`): `a` may
come before `b` iff `b.created_at <= a.created_at` (descending; with a
stable sort, ties keep their original relative order, exactly as Python's
`list.sort(reverse=True)` does). -/
def postDesc (a b : Post) : Bool := decide (b.created_at ≤ a.created_at)

/-- Lines 196-198: sort posts by creation date, newest first (guarded by
`if all_posts:`, so the empty list is passed through).  `List.mergeSort` is
a stable sort, matching Python's stable `list.sort`. -/
def sortPosts (all_posts : List Post) : List Post :=
  if all_posts.isEmpty then all_posts
  else all_posts.mergeSort postDesc

/-- Line 29: `TOKEN_LIMIT = 950000` (95% of 1M tokens). -/
def TOKEN_LIMIT : ℕ := 950000

/-- Python's `int()` conversion of a (here exactly represented) real number:
truncation toward zero. -/
def pyInt (q : ℚ) : ℤ := if 0 ≤ q then ⌊q⌋ else ⌈q⌉

/-- Lines 51-53 of the Exceeded branch:
`excess_tokens = token_count - TOKEN_LIMIT`,
`avg_tokens_per_post = token_count // len(all_posts)`,
`posts_to_remove = int(excess_tokens / avg_tokens_per_post * 1.1)`,
with the float arithmetic modelled as exact rational arithmetic. -/
def posts_to_remove (token_count post_count : ℕ) : ℤ :=
  let excess_tokens : ℕ := token_count - TOKEN_LIMIT
  let avg_tokens_per_post : ℕ := token_count / post_count
  pyInt ((excess_tokens : ℚ) / (avg_tokens_per_post : ℚ) * (11 / 10))

/-- Line 54: `posts_to_keep = len(all_posts) - posts_to_remove` (a Python
int, possibly negative). -/
def posts_to_keep (token_count post_count : ℕ) : ℤ :=
  (post_count : ℤ) - posts_to_remove token_count post_count

/-- Modelled from the spec: the spec's formula for the Exceeded step,
`postsToRemove = ceil(excess / avgTokensPerPost * 1.1)`, written with a
ceiling exactly as the spec's words say, for comparison against the
source's `posts_to_remove`. -/
def posts_to_remove_ceil (token_count post_count : ℕ) : ℤ :=
  ⌈((token_count - TOKEN_LIMIT : ℕ) : ℚ) / ((token_count / post_count : ℕ) : ℚ) * (11 / 10)⌉

/-- Python list slicing `l[:stop]` for an arbitrary (possibly negative)
integer `stop`: a nonnegative `stop` keeps the first `stop` elements, a
negative `stop` keeps the first `len(l) + stop` elements, clamped at zero;
no exception is ever raised. -/
def pySliceTo {α : Type} (l : List α) (stop : ℤ) : List α :=
  if 0 ≤ stop then l.take stop.toNat
  else l.take ((l.length : ℤ) + stop).toNat

/-- Line 80 of `trim_posts_and_reexport`:
`trimmed_posts = all_posts[:posts_to_keep]`. -/
def trimmed_posts (all_posts : List Post) (keep : ℤ) : List Post :=
  pySliceTo all_posts keep

/-- What `check_token_limit_and_offer_trim` does to the artifact: either the
original filename is returned with no new artifact written
(`original`), or a new trimmed artifact holding exactly the given posts is
written and its filename returned (`trimmed`). -/
inductive EnforceOutcome where
  | original : EnforceOutcome
  | trimmed : List Post → EnforceOutcome
deriving DecidableEq

/-- Lines 25-71 (`check_token_limit_and_offer_trim`) together with line 80:
`token_count` is the result of the token counter (`none` models the
tokenizer being unavailable or raising), `accept_trim` the user's y/n
answer.  `Except.error ()` models a `ZeroDivisionError` raised by
`token_count // len(all_posts)` when the collection is empty (line 52) or
by `excess_tokens / avg_tokens_per_post` when the integer-truncated average
is zero (line 53). -/
def check_token_limit_and_offer_trim (token_count : Option ℕ)
    (all_posts : List Post) (accept_trim : Bool) : Except Unit EnforceOutcome :=
  match token_count with
  | none => Except.ok EnforceOutcome.original
  | some tc =>
    if tc ≤ TOKEN_LIMIT then Except.ok EnforceOutcome.original
    else if all_posts.length = 0 then Except.error ()
    else if tc / all_posts.length = 0 then Except.error ()
    else
      let keep := posts_to_keep tc all_posts.length
      if accept_trim then Except.ok (EnforceOutcome.trimmed (trimmed_posts all_posts keep))
      else Except.ok EnforceOutcome.original

/-! ## Concrete inputs used by the witnesses -/

/-- A raw record with no embed at all. -/
def recPlain : RawRecord :=
  { created_at := "2024-03-02T10:00:00.000Z", text := "hello", embed := Embed.absent }

/-- A raw record with an images embed whose single image has no alt text. -/
def recNoAlt : RawRecord :=
  { created_at := "2024-03-01T10:00:00.000Z", text := "pic",
    embed := Embed.present "app.bsky.embed.images" [{ cid := "bafy1", alt := none }] }

/-- A raw record with an images embed carrying one image with alt text and
one without. -/
def recTwoImgs : RawRecord :=
  { created_at := "2024-02-01T10:00:00.000Z", text := "pics",
    embed := Embed.present "app.bsky.embed.images"
      [{ cid := "bafy2", alt := some "a dog" }, { cid := "bafy3", alt := none }] }

/-- A raw record with an embed of a non-images type. -/
def recOtherEmbed : RawRecord :=
  { created_at := "2024-01-01T10:00:00.000Z", text := "link",
    embed := Embed.present "app.bsky.embed.external" [] }

/-- A full first page: two records and a truthy next cursor. -/
def pageOne : Page := { records := [recPlain, recNoAlt], cursor := some "cur1" }

/-- A final page: one record and no next cursor. -/
def pageLast : Page := { records := [recTwoImgs], cursor := none }

/-- Four already-sorted posts (descending creation date, no images). -/
def demo4 : List Post :=
  [ { created_at := "2024-04-04T00:00:00.000Z", text := "d", images := [] },
    { created_at := "2024-03-03T00:00:00.000Z", text := "c", images := [] },
    { created_at := "2024-02-02T00:00:00.000Z", text := "b", images := [] },
    { created_at := "2024-01-01T00:00:00.000Z", text := "a", images := [] } ]

/-! ## Helper lemmas -/

/-- Exact-rational evaluation of the source's
`int(excess / avg * 1.1)`: it is the integer truncation
`(excess * 11) / (avg * 10)` in natural-number division. -/
theorem pyInt_div_mul_eleven_tenths (e a : ℕ) :
    pyInt ((e : ℚ) / (a : ℚ) * (11 / 10)) = ((e * 11 / (a * 10) : ℕ) : ℤ) := by
  have hq : (e : ℚ) / (a : ℚ) * (11 / 10) = ((e * 11 : ℕ) : ℚ) / ((a * 10 : ℕ) : ℚ) := by
    push_cast
    rw [div_mul_div_comm]
  rw [pyInt, hq, if_pos (by positivity), Rat.floor_natCast_div_natCast]
  push_cast
  rfl

/-- The source's `posts_to_remove` equals truncating natural-number
division: `(token_count - TOKEN_LIMIT) * 11 / ((token_count // post_count) * 10)`. -/
theorem posts_to_remove_eq_natDiv (tc pc : ℕ) :
    posts_to_remove tc pc = (((tc - TOKEN_LIMIT) * 11 / (tc / pc * 10) : ℕ) : ℤ) := by
  unfold posts_to_remove
  exact pyInt_div_mul_eleven_tenths (tc - TOKEN_LIMIT) (tc / pc)

/-- Python slicing `l[:k]` with a nonnegative bound keeps the first `k`
elements. -/
theorem pySliceTo_of_nonneg {α : Type} (l : List α) (k : ℤ) (h : 0 ≤ k) :
    pySliceTo l k = l.take k.toNat := by
  unfold pySliceTo
  rw [if_pos h]

/-- Python slicing `l[:k]` with a negative bound keeps the first
`len(l) + k` elements (clamped at zero). -/
theorem pySliceTo_of_neg {α : Type} (l : List α) (k : ℤ) (h : k < 0) :
    pySliceTo l k = l.take ((l.length : ℤ) + k).toNat := by
  unfold pySliceTo
  rw [if_neg (by omega)]

/-! ## Claim theorems -/

/-- C1 counterexample: at `token_count = 950100`, `post_count = 9501`
(token count above the limit, non-empty collection, average 100 tokens per
post, excess 100), the source's `posts_to_remove` is `int(1.1) = 1`, while
the claimed formula `ceil(excess / avg * 1.1) = ceil(1.1)` is `2`. -/
theorem posts_to_remove_ne_ceil_cex :
    TOKEN_LIMIT < 950100 ∧ posts_to_remove 950100 9501 = 1 ∧
      posts_to_remove_ceil 950100 9501 = 2 := by
  refine ⟨by decide, ?_, ?_⟩
  · rw [posts_to_remove_eq_natDiv]
    decide
  · unfold posts_to_remove_ceil
    have h1 : (950100 - TOKEN_LIMIT : ℕ) = 100 := by decide
    have h2 : (950100 / 9501 : ℕ) = 100 := by decide
    rw [h1, h2]
    have h3 : ((100 : ℕ) : ℚ) / ((100 : ℕ) : ℚ) * (11 / 10) = 11 / 10 := by norm_num
    rw [h3, Int.ceil_eq_iff]
    norm_num

/-- C1 (amended): in the Exceeded step, for every measured
`token_count > TOKEN_LIMIT` and non-empty collection, the number of posts
to remove is the TRUNCATION (not the ceiling) of
`excess / avgTokensPerPost * 1.1`, i.e. `excess * 11 / (avg * 10)` in
integer division with `excess = token_count - TOKEN_LIMIT` and
`avg = token_count / post_count` integer-truncated; in particular for
`token_count = 1000000`, `post_count = 10000` it is `550` and
`posts_to_keep = 9450` (see the witness). -/
theorem posts_to_remove_is_truncation (tc pc : ℕ)
    (_h1 : TOKEN_LIMIT < tc) (_h2 : pc ≠ 0) :
    posts_to_remove tc pc = (((tc - TOKEN_LIMIT) * 11 / (tc / pc * 10) : ℕ) : ℤ) :=
  posts_to_remove_eq_natDiv tc pc

/-- C1 witness: the spec's concrete scenario, token count 1,000,000 over
10,000 posts: 550 posts to remove, 9,450 to keep. -/
theorem posts_to_remove_is_truncation_witness :
    posts_to_remove 1000000 10000 = 550 ∧ posts_to_keep 1000000 10000 = 9450 := by
  have h := posts_to_remove_is_truncation 1000000 10000 (by decide) (by decide)
  constructor
  · rw [h]
    decide
  · unfold posts_to_keep
    rw [h]
    decide

/-- C3: an accepted trim produces the new artifact holding exactly the
prefix of length `posts_to_keep` of the (already sorted, newest-first)
collection it was given: `all_posts[:posts_to_keep]` — no re-sort, no
reorder, the oldest posts dropped. -/
theorem accepted_trim_is_take (tc : ℕ) (l : List Post)
    (h1 : TOKEN_LIMIT < tc) (h2 : l.length ≠ 0) (h3 : tc / l.length ≠ 0)
    (h4 : 0 ≤ posts_to_keep tc l.length) :
    check_token_limit_and_offer_trim (some tc) l true
      = Except.ok (EnforceOutcome.trimmed (l.take (posts_to_keep tc l.length).toNat)) := by
  simp only [check_token_limit_and_offer_trim]
  rw [if_neg (by omega), if_neg h2, if_neg h3]
  simp only [if_true, trimmed_posts]
  rw [pySliceTo_of_nonneg _ _ h4]

/-- C3 witness: token count 1,900,000 over the four sorted posts `demo4`
(average 475,000 tokens per post, excess 950,000, posts to remove 2, posts
to keep 2): the accepted trim keeps exactly the first two (newest) posts. -/
theorem accepted_trim_is_take_witness :
    check_token_limit_and_offer_trim (some 1900000) demo4 true
      = Except.ok (EnforceOutcome.trimmed (demo4.take 2)) := by
  have hkeep : posts_to_keep 1900000 demo4.length = 2 := by
    unfold posts_to_keep
    rw [posts_to_remove_eq_natDiv]
    decide
  have h := accepted_trim_is_take 1900000 demo4 (by decide) (by decide) (by decide)
    (by rw [hkeep]; decide)
  rw [hkeep] at h
  exact h

/-- C4: when `posts_to_keep` is negative (posts to remove exceeded the post
count), no clamp to zero is applied: the slice `all_posts[:posts_to_keep]`
follows Python slice semantics and keeps the first
`max(0, len(all_posts) + posts_to_keep)` posts — it is neither an error
nor (in general) an empty collection. -/
theorem trimmed_posts_neg_keep (l : List Post) (k : ℤ) (h : k < 0) :
    trimmed_posts l k = l.take (max 0 ((l.length : ℤ) + k)).toNat := by
  unfold trimmed_posts
  rw [pySliceTo_of_neg _ _ h]
  congr 1
  omega

/-- C4 witness: slicing the four posts `demo4` with the negative bound `-1`
keeps the first three posts — a non-empty, non-erroring prefix. -/
theorem trimmed_posts_neg_keep_witness :
    trimmed_posts demo4 (-1) = demo4.take 3 ∧ trimmed_posts demo4 (-1) ≠ [] := by
  have h := trimmed_posts_neg_keep demo4 (-1) (by decide)
  constructor
  · rw [h]
    decide
  · rw [h]
    decide

/-- C8: when the token counter is unavailable (returns no count because the
tokenizer cannot be loaded or throws), the budget enforcer returns the
original artifact unchanged and writes no trimmed artifact, whatever the
collection and whatever the user would answer. -/
theorem tokenizer_unavailable_returns_original (l : List Post) (accept_trim : Bool) :
    check_token_limit_and_offer_trim none l accept_trim
      = Except.ok EnforceOutcome.original := rfl

/-- C10: in the Exceeded branch (token count above the limit), the budget
enforcer raises a division-by-zero error exactly when the collection is
empty (the unguarded `token_count // len(all_posts)`) or the truncated
average `token_count // len(all_posts)` is zero (the unguarded
`excess / avg`); it is division-error-free precisely for a non-empty
collection with average at least one token per post. -/
theorem exceeded_branch_div_error_iff (tc : ℕ) (l : List Post) (a : Bool)
    (h : TOKEN_LIMIT < tc) :
    check_token_limit_and_offer_trim (some tc) l a = Except.error ()
      ↔ (l.length = 0 ∨ tc / l.length = 0) := by
  simp only [check_token_limit_and_offer_trim]
  rw [if_neg (by omega)]
  by_cases h0 : l.length = 0
  · simp [h0]
  · rw [if_neg h0]
    by_cases h1 : tc / l.length = 0
    · simp [h0, h1]
    · rw [if_neg h1]
      cases a <;> simp [h0, h1]

/-- C10 witness: token count 950,001 (just above the limit) with an empty
collection raises the division-by-zero error. -/
theorem exceeded_branch_div_error_witness :
    check_token_limit_and_offer_trim (some 950001) [] true = Except.error () :=
  (exceeded_branch_div_error_iff 950001 [] true (by decide)).mpr (Or.inl rfl)

/-- C2: for every finite sequence of page responses in which every
non-final page is non-empty with a truthy next cursor and the final page
either has zero records or a falsy/absent next cursor, the fetch loop
terminates (it is a total structurally-recursive function) and accumulates
exactly as many posts as the sum of the record counts of all pages
processed, the terminating page included (an empty terminating page
contributes nothing; a final page with records but no cursor contributes
its records). -/
theorem fetch_loop_counts (did : String) (ps : List Page) (lastPage : Page)
    (hmid : ∀ p ∈ ps, p.records ≠ [] ∧ cursorTruthy p.cursor = true)
    (hlast : lastPage.records = [] ∨ cursorTruthy lastPage.cursor = false) :
    (fetchLoop did ((ps ++ [lastPage]).map Except.ok)).length
      = ((ps ++ [lastPage]).map (fun p => p.records.length)).sum := by
  induction ps with
  | nil =>
    simp only [List.nil_append, List.map_cons, List.map_nil, fetchLoop,
      List.sum_cons, List.sum_nil]
    rcases hlast with h | h
    · rw [if_pos (by simp [h])]
      simp [h]
    · by_cases he : lastPage.records.isEmpty
      · rw [if_pos he]
        simp only [List.isEmpty_iff] at he
        simp [he]
      · rw [if_neg he]
        simp [h]
  | cons p ps ih =>
    obtain ⟨hne, hcur⟩ := hmid p (List.mem_cons_self p ps)
    have ih' := ih fun q hq => hmid q (List.mem_cons_of_mem p hq)
    simp only [List.cons_append, List.map_cons, fetchLoop, List.sum_cons]
    rw [if_neg (by simpa [List.isEmpty_iff] using hne), if_pos hcur]
    simp only [List.append_eq, List.length_append, List.length_map]
    rw [ih']

/-- C2 witness: two pages — a full page of two records with a truthy
cursor, then a final page of one record without a cursor — terminate with
three accumulated posts, the sum of the per-page record counts. -/
theorem fetch_loop_counts_witness :
    (fetchLoop "did:plc:demo" (([pageOne] ++ [pageLast]).map Except.ok)).length
      = (([pageOne] ++ [pageLast]).map (fun p => p.records.length)).sum := by
  exact fetch_loop_counts "did:plc:demo" [pageOne] pageLast (by decide) (by decide)

/-- C7: when some page request raises, the fetch loop stops right there:
whatever responses would have come after the failure (`rest`) are never
requested (no retry), the error is not propagated (the loop returns a
post list, not an exception), and the result is exactly the transformed
records of the pages completed before the failure, ready to be sorted and
exported as a partial artifact. -/
theorem fetch_error_stops_with_partial (did : String) (good : List Page)
    (rest : List (Except Unit Page))
    (hgood : ∀ p ∈ good, p.records ≠ [] ∧ cursorTruthy p.cursor = true) :
    fetchLoop did (good.map Except.ok ++ Except.error () :: rest)
      = (good.map (fun p => p.records.map (transform_record did))).flatten := by
  induction good with
  | nil => simp [fetchLoop]
  | cons p ps ih =>
    obtain ⟨hne, hcur⟩ := hgood p (List.mem_cons_self p ps)
    simp only [List.map_cons, List.cons_append, fetchLoop, List.flatten_cons,
      List.append_eq]
    rw [if_neg (by simpa [List.isEmpty_iff] using hne), if_pos hcur,
      ih fun q hq => hgood q (List.mem_cons_of_mem p hq)]

/-- C7 witness: a completed full page, then a failing request, then a page
that would have followed: the loop returns exactly the first page's two
transformed posts and ignores everything after the failure. -/
theorem fetch_error_stops_with_partial_witness :
    fetchLoop "did:plc:demo" ([pageOne].map Except.ok ++ Except.error () :: [Except.ok pageLast])
      = ([pageOne].map (fun p => p.records.map (transform_record "did:plc:demo"))).flatten := by
  exact fetch_error_stops_with_partial "did:plc:demo" [pageOne] [Except.ok pageLast] (by decide)

/-- C5 counterexample: a record whose images embed has one image with a
missing alt value produces an image descriptor whose `alt_text` is absent
(`none`), not the empty string — the source stores `image.alt` verbatim
and never substitutes an empty string. -/
theorem alt_text_missing_stays_missing_cex :
    (transform_record "did:plc:demo" recNoAlt).images.map (fun i => i.alt_text) = [none]
      ∧ (transform_record "did:plc:demo" recNoAlt).images.map (fun i => i.alt_text)
          ≠ [some ""] :=
  ⟨rfl, by decide⟩

/-- C5 (amended): for every record with an images embed, each produced
image descriptor's `alt_text` equals the raw image's alt value verbatim —
a present alt is kept and a missing alt stays missing (`none`); the code
never substitutes an empty string for a missing alt. -/
theorem alt_text_passthrough (did : String) (r : RawRecord) (imgs : List RawImage)
    (h : r.embed = Embed.present "app.bsky.embed.images" imgs) :
    (transform_record did r).images.map (fun i => i.alt_text)
      = imgs.map (fun i => i.alt) := by
  simp [transform_record, h, List.map_map]

/-- C5 witness: a record with one alt-texted image and one without yields
`alt_text` values `some "a dog"` and `none`, each copied verbatim. -/
theorem alt_text_passthrough_witness :
    (transform_record "did:plc:demo" recTwoImgs).images.map (fun i => i.alt_text)
      = [some "a dog", none] := by
  rw [alt_text_passthrough "did:plc:demo" recTwoImgs _ rfl]
  rfl

/-- C9: a record whose optional embed is absent (or falsy) or whose embed
is of a non-images type produces a post with an empty image list; the
transformation is a total function on such records (the embed is tested
before being dereferenced), so these are non-error paths. -/
theorem no_images_embed_yields_empty (did : String) (r : RawRecord)
    (h : r.embed = Embed.absent
      ∨ ∃ ty imgs, r.embed = Embed.present ty imgs ∧ ty ≠ "app.bsky.embed.images") :
    (transform_record did r).images = [] := by
  rcases h with h | ⟨ty, imgs, h, hty⟩
  · simp [transform_record, h]
  · simp [transform_record, h, hty]

/-- C9 witness: a record with no embed and a record with an external
(non-images) embed both yield an empty image list. -/
theorem no_images_embed_yields_empty_witness :
    (transform_record "did:plc:demo" recPlain).images = []
      ∧ (transform_record "did:plc:demo" recOtherEmbed).images = [] :=
  ⟨no_images_embed_yields_empty "did:plc:demo" recPlain (Or.inl rfl),
   no_images_embed_yields_empty "did:plc:demo" recOtherEmbed
     (Or.inr ⟨"app.bsky.embed.external", [], rfl, by decide⟩)⟩

/-- C6: after the sort, every adjacent pair of posts is non-increasing in
`created_at` (lexicographic string comparison, descending), and for every
timestamp the posts carrying it appear in their original relative order —
the sort is stable, as Python's `list.sort` is. -/
theorem sortPosts_sorted_and_stable (l : List Post) (t : String) :
    List.Chain' (fun a b => b.created_at ≤ a.created_at) (sortPosts l) ∧
    (sortPosts l).filter (fun p => decide (p.created_at = t))
      = l.filter (fun p => decide (p.created_at = t)) := by
  have htrans : ∀ a b c : Post, postDesc a b → postDesc b c → postDesc a c := by
    intro a b c hab hbc
    simp only [postDesc, decide_eq_true_eq] at *
    exact le_trans hbc hab
  have htotal : ∀ a b : Post, postDesc a b || postDesc b a := by
    intro a b
    simp only [postDesc, Bool.or_eq_true, decide_eq_true_eq]
    exact le_total b.created_at a.created_at
  by_cases hl : l.isEmpty
  · simp only [List.isEmpty_iff] at hl
    subst hl
    exact ⟨by simp [sortPosts], by simp [sortPosts]⟩
  · have hs : sortPosts l = l.mergeSort postDesc := by
      simp [sortPosts, hl]
    constructor
    · rw [hs]
      have hp := List.sorted_mergeSort htrans htotal l
      exact (hp.imp fun h => by simpa [postDesc] using h).chain'
    · rw [hs]
      have hsubl : List.Sublist (l.filter (fun p => decide (p.created_at = t))) l :=
        List.filter_sublist l
      have hpair : (l.filter (fun p => decide (p.created_at = t))).Pairwise
          (fun a b => postDesc a b = true) := by
        rw [List.pairwise_iff_forall_sublist]
        intro a b hab
        have ha := (List.mem_filter.mp (hab.subset (show a ∈ [a, b] by simp))).2
        have hb := (List.mem_filter.mp (hab.subset (show b ∈ [a, b] by simp))).2
        simp only [decide_eq_true_eq] at ha hb
        simp [postDesc, ha, hb]
      have hsub2 := List.sublist_mergeSort htrans htotal hpair hsubl
      have hsub3 : List.Sublist (l.filter (fun p => decide (p.created_at = t)))
          ((l.mergeSort postDesc).filter (fun p => decide (p.created_at = t))) := by
        have hf := hsub2.filter (fun p => decide (p.created_at = t))
        rwa [List.filter_eq_self.mpr (fun a ha => (List.mem_filter.mp ha).2)] at hf
      have hperm : List.Perm
          ((l.mergeSort postDesc).filter (fun p => decide (p.created_at = t)))
          (l.filter (fun p => decide (p.created_at = t))) :=
        (List.mergeSort_perm l postDesc).filter _
      exact (hsub3.eq_of_length hperm.length_eq.symm).symm

end BskyExport
